import Mathlib

/-!
Verification of the scheduling + keyed-state core of the onesignal-api-server
repository: a shallow embedding of `api/storage/kv_store.py`,
`api/services/otp_service.py`, `api/services/coupon_service.py`,
`api/services/delivery_service.py` and `api/services/flight_update.py`,
together with theorems settling the specification claims about them.

Conventions of the embedding:
* JSON-serializable Python values (everything passes through `json.dumps` /
  `json.loads`, an identity round trip on these values) are modelled by `JVal`.
* Python dictionaries are modelled as association lists in which a later
  binding for a key shadows earlier ones; `lookupK` reads the newest binding
  and `setK` prepends, which realises dict overwrite semantics.
* Python truthiness (`if x:`, `x or 0`) is modelled by `pyFalsy`.
* `datetime` timestamps that are only stored (never compared) are threaded as
  opaque strings; coupon expiry timestamps, which the source compares with
  `datetime.utcnow()`, are modelled as integer timestamps.
-/

/-- JSON values, the codomain of the store (`json.dumps`/`json.loads` in
`kv_store.py` round-trip exactly these). -/
inductive JVal where
  | jnull : JVal
  | jbool : Bool → JVal
  | jnum : Int → JVal
  | jstr : String → JVal
  | jobj : List (String × JVal) → JVal

mutual

/-- Decidable equality of JSON values (the automatic derivation does not
handle the nested `List`). -/
def JVal.decEq : (a b : JVal) → Decidable (a = b)
  | .jnull, .jnull => isTrue rfl
  | .jbool x, .jbool y =>
      if h : x = y then isTrue (by rw [h])
      else isFalse (by intro hh; injection hh; contradiction)
  | .jnum x, .jnum y =>
      if h : x = y then isTrue (by rw [h])
      else isFalse (by intro hh; injection hh; contradiction)
  | .jstr x, .jstr y =>
      if h : x = y then isTrue (by rw [h])
      else isFalse (by intro hh; injection hh; contradiction)
  | .jobj x, .jobj y =>
      match JVal.decEqFields x y with
      | isTrue h => isTrue (by rw [h])
      | isFalse h => isFalse (by intro hh; injection hh; contradiction)
  | .jnull, .jbool _ => isFalse (fun h => JVal.noConfusion h)
  | .jnull, .jnum _ => isFalse (fun h => JVal.noConfusion h)
  | .jnull, .jstr _ => isFalse (fun h => JVal.noConfusion h)
  | .jnull, .jobj _ => isFalse (fun h => JVal.noConfusion h)
  | .jbool _, .jnull => isFalse (fun h => JVal.noConfusion h)
  | .jbool _, .jnum _ => isFalse (fun h => JVal.noConfusion h)
  | .jbool _, .jstr _ => isFalse (fun h => JVal.noConfusion h)
  | .jbool _, .jobj _ => isFalse (fun h => JVal.noConfusion h)
  | .jnum _, .jnull => isFalse (fun h => JVal.noConfusion h)
  | .jnum _, .jbool _ => isFalse (fun h => JVal.noConfusion h)
  | .jnum _, .jstr _ => isFalse (fun h => JVal.noConfusion h)
  | .jnum _, .jobj _ => isFalse (fun h => JVal.noConfusion h)
  | .jstr _, .jnull => isFalse (fun h => JVal.noConfusion h)
  | .jstr _, .jbool _ => isFalse (fun h => JVal.noConfusion h)
  | .jstr _, .jnum _ => isFalse (fun h => JVal.noConfusion h)
  | .jstr _, .jobj _ => isFalse (fun h => JVal.noConfusion h)
  | .jobj _, .jnull => isFalse (fun h => JVal.noConfusion h)
  | .jobj _, .jbool _ => isFalse (fun h => JVal.noConfusion h)
  | .jobj _, .jnum _ => isFalse (fun h => JVal.noConfusion h)
  | .jobj _, .jstr _ => isFalse (fun h => JVal.noConfusion h)

/-- Decidable equality of JSON object field lists. -/
def JVal.decEqFields :
    (l1 l2 : List (String × JVal)) → Decidable (l1 = l2)
  | [], [] => isTrue rfl
  | [], _ :: _ => isFalse (fun h => List.noConfusion h)
  | _ :: _, [] => isFalse (fun h => List.noConfusion h)
  | (k1, v1) :: r1, (k2, v2) :: r2 =>
      if hk : k1 = k2 then
        match JVal.decEq v1 v2, JVal.decEqFields r1 r2 with
        | isTrue hv, isTrue hr => isTrue (by rw [hk, hv, hr])
        | isFalse hv, _ =>
            isFalse (by
              intro h
              injection h with h1 h2
              injection h1
              contradiction)
        | _, isFalse hr =>
            isFalse (by intro h; injection h with h1 h2; contradiction)
      else
        isFalse (by
          intro h
          injection h with h1 h2
          injection h1
          contradiction)

end

instance : DecidableEq JVal := JVal.decEq

/-- First-match lookup in an association list (Python dict read; `setK`
prepends, so the first match is the newest binding). -/
def lookupK {α : Type} : List (String × α) → String → Option α
  | [], _ => none
  | (k, v) :: rest, key => if k = key then some v else lookupK rest key

/-- Overwriting insert into an association list (Python dict write). -/
def setK {α : Type} (m : List (String × α)) (key : String) (v : α) :
    List (String × α) :=
  (key, v) :: m

theorem lookupK_setK_same {α : Type} (m : List (String × α)) (key : String)
    (v : α) : lookupK (setK m key v) key = some v := by
  simp [setK, lookupK]

theorem lookupK_setK_other {α : Type} (m : List (String × α)) (k k' : String)
    (v : α) (h : k ≠ k') : lookupK (setK m k v) k' = lookupK m k' := by
  simp [setK, lookupK, h]

/-- Python truthiness of a JSON value: `None`, `False`, `0`, `""`, `{}` are
falsy, everything else truthy. -/
def pyFalsy : JVal → Bool
  | .jnull => true
  | .jbool b => !b
  | .jnum n => n == 0
  | .jstr s => s == ""
  | .jobj fields => fields.isEmpty

/-- Truthiness of an optional value (a `kv.get` result): absent is falsy. -/
def optTruthy : Option JVal → Bool
  | none => false
  | some v => !pyFalsy v

/-- Field read on a JSON object (`dict.get(k)`): `none` when the value is not
an object or the field is absent. -/
def JVal.getField : JVal → String → Option JVal
  | .jobj fields, k => lookupK fields k
  | _, _ => none

/-- Field write on a JSON object (`rec[k] = v`). On a non-object (which the
source never produces at these call sites) the value is returned unchanged. -/
def JVal.setField : JVal → String → JVal → JVal
  | .jobj fields, k, v => .jobj (setK fields k v)
  | other, _, _ => other

/-- `rec.setdefault(outer, {})[inner] = v` from
`FlightLiveActivityService._kv_update_state`: fetch the nested object at
`outer` (defaulting to `{}`), set `inner` in it, and write it back. -/
def JVal.setNested (rec : JVal) (outer inner : String) (v : JVal) : JVal :=
  let nested := (rec.getField outer).getD (.jobj [])
  rec.setField outer (nested.setField inner v)

/-! ## The Keyed Expiring Store (`api/storage/kv_store.py`)

The in-memory fallback path of `KVStore` (the `local_storage` dict used
whenever `redis_client` is `None`).  The source stores each entry as
`{'value': json_value, 'ttl': ttl, 'timestamp': None}` and its `get` never
consults a clock, so the fallback functions take no time argument. -/

/-- One `local_storage` entry: serialized value and the recorded (but never
enforced) ttl. The source also stores a `timestamp` field that is always
`None` and never read, so it is omitted here. -/
structure LocalEntry where
  value : JVal
  ttl : Option Nat
  deriving DecidableEq

/-- The fallback `local_storage` dict. -/
abbrev LocalStore := List (String × LocalEntry)

/-- `KVStore.set` on the fallback path: records value and ttl, returns
`True`. -/
def localSet (s : LocalStore) (key : String) (v : JVal) (ttl : Option Nat) :
    LocalStore :=
  setK s key ⟨v, ttl⟩

/-- `KVStore.get` on the fallback path: returns the stored value, with no
expiry check of any kind (the entry's `ttl` field is never read). -/
def localGet (s : LocalStore) (key : String) : Option JVal :=
  (lookupK s key).map LocalEntry.value

/-- The fallback `get` as observed at wall-clock time `now`: the source reads
no clock on this path (`timestamp` is stored as `None` and `get` ignores
`ttl`), so the result is independent of `now`. -/
def localGetAt (s : LocalStore) (key : String) (now : Nat) : Option JVal :=
  localGet s key

/-- `KVStore.increment` on the fallback path:
`current = self.get(key) or 0; self.set(key, current + amount)`.
A stored value that Python cannot add to an int raises inside the `try`,
which the method converts to returning `0` with the store unchanged. -/
def localIncrement (s : LocalStore) (key : String) (amount : Int) :
    Int × LocalStore :=
  match localGet s key with
  | none => (amount, localSet s key (.jnum amount) none)
  | some (.jnum n) => (n + amount, localSet s key (.jnum (n + amount)) none)
  | some (.jbool b) =>
      let n : Int := if b then 1 else 0
      (n + amount, localSet s key (.jnum (n + amount)) none)
  | some v =>
      if pyFalsy v then (amount, localSet s key (.jnum amount) none)
      else (0, s)

theorem localGet_localSet_same (s : LocalStore) (key : String) (v : JVal)
    (ttl : Option Nat) : localGet (localSet s key v ttl) key = some v := by
  simp [localGet, localSet, lookupK_setK_same]

theorem localGet_localSet_other (s : LocalStore) (k k' : String) (v : JVal)
    (ttl : Option Nat) (h : k ≠ k') :
    localGet (localSet s k v ttl) k' = localGet s k' := by
  simp [localGet, localSet, lookupK_setK_other _ _ _ _ h]

/-- Modelled from the spec: the remote backend (`redis.setex`, external to the
repository), where an entry written at `writeTime` with ttl `T` "becomes
invisible to `get`/`exists` after `ttl` seconds from write". -/
structure RemoteEntry where
  value : JVal
  expiresAt : Option Nat
  deriving DecidableEq

/-- Modelled from the spec: the remote backend's key space. -/
abbrev RemoteStore := List (String × RemoteEntry)

/-- Modelled from the spec: `SETEX key ttl value` at time `writeTime`. -/
def remoteSetex (s : RemoteStore) (key : String) (ttl : Nat) (v : JVal)
    (writeTime : Nat) : RemoteStore :=
  setK s key ⟨v, some (writeTime + ttl)⟩

/-- Modelled from the spec: `GET key` at time `now`; an entry is visible
exactly while `now` is before its expiry. -/
def remoteGetAt (s : RemoteStore) (key : String) (now : Nat) : Option JVal :=
  match lookupK s key with
  | none => none
  | some e =>
      match e.expiresAt with
      | none => some e.value
      | some t => if now < t then some e.value else none

/-! ## Key-namespace disjointness

The services build keys by prefixing (`otp:`, `rate:`, `coupon:`,
`user_coupon:`, `live:flightUpdate:`); keys from different namespaces are
never equal because their first characters differ. -/

theorem rate_key_ne_otp_key (p q : String) : "rate:" ++ p ≠ "otp:" ++ q := by
  intro h
  have h2 := congrArg String.data h
  simp only [String.data_append] at h2
  have h3 := congrArg List.head? h2
  simp at h3

theorem coupon_key_ne_user_coupon_key (p q : String) :
    "coupon:" ++ p ≠ "user_coupon:" ++ q := by
  intro h
  have h2 := congrArg String.data h
  simp only [String.data_append] at h2
  have h3 := congrArg List.head? h2
  simp at h3

theorem user_coupon_key_ne_coupon_key (p q : String) :
    "user_coupon:" ++ p ≠ "coupon:" ++ q :=
  fun h => coupon_key_ne_user_coupon_key q p h.symm

theorem otp_key_ne_rate_key (p c q : String) :
    "otp:" ++ p ++ ":" ++ c ≠ "rate:" ++ q := by
  intro h
  have h2 := congrArg String.data h
  simp only [String.data_append] at h2
  have h3 := congrArg List.head? h2
  simp at h3

theorem rate_key_ne_otp_phone_code_key (p c q : String) :
    "rate:" ++ q ≠ "otp:" ++ p ++ ":" ++ c :=
  fun h => otp_key_ne_rate_key p c q h.symm

/-! ## Decimal representation

`OTPService.generate_otp` returns `str(random.randint(10000, 99999))`; the
string is `Nat.repr` of the drawn number.  `decChars` is a clean recursion
equal to core's fuelled `Nat.toDigitsCore`, used to prove that the code is a
five-character digit string. -/

/-- Decimal digit characters of `n`, most significant first. -/
def decChars (n : Nat) : List Char :=
  if h : n < 10 then [Nat.digitChar n]
  else decChars (n / 10) ++ [Nat.digitChar (n % 10)]
  decreasing_by
    have h10 : 10 ≤ n := Nat.le_of_not_lt h
    exact Nat.div_lt_self (by omega) (by omega)

theorem toDigitsCore_eq_decChars :
    ∀ (f n : Nat) (l : List Char), n < f →
      Nat.toDigitsCore 10 f n l = decChars n ++ l := by
  intro f
  induction f with
  | zero => intro n l h; omega
  | succ f ih =>
      intro n l h
      by_cases h10 : n < 10
      · have hdiv : n / 10 = 0 := Nat.div_eq_of_lt h10
        have hmod : n % 10 = n := Nat.mod_eq_of_lt h10
        simp [Nat.toDigitsCore, hdiv, hmod, decChars, h10]
      · have hge : 10 ≤ n := Nat.le_of_not_lt h10
        have hdiv : n / 10 ≠ 0 := by
          intro h0
          have hdm := Nat.div_add_mod n 10
          have hm : n % 10 < 10 := Nat.mod_lt _ (by omega)
          omega
        have hlt : n / 10 < f := by
          have h1 : n / 10 < n := Nat.div_lt_self (by omega) (by omega)
          omega
        rw [show decChars n = decChars (n / 10) ++ [Nat.digitChar (n % 10)] by
              rw [decChars]; simp [h10]]
        simp only [Nat.toDigitsCore, hdiv, if_false]
        rw [ih (n / 10) (Nat.digitChar (n % 10) :: l) hlt]
        simp

theorem repr_eq_decChars (n : Nat) : Nat.repr n = (decChars n).asString := by
  rw [Nat.repr, Nat.toDigits,
    toDigitsCore_eq_decChars (n + 1) n [] (Nat.lt_succ_self n)]
  simp

theorem decChars_length :
    ∀ (k n : Nat), 10 ^ k ≤ n → n < 10 ^ (k + 1) →
      (decChars n).length = k + 1 := by
  intro k
  induction k with
  | zero =>
      intro n h1 h2
      have h10 : n < 10 := by simpa using h2
      rw [decChars]
      simp [h10]
  | succ k ih =>
      intro n h1 h2
      have hge : 10 ≤ n := le_trans (by
        calc 10 = 10 ^ 1 := by norm_num
        _ ≤ 10 ^ (k + 1) := Nat.pow_le_pow_right (by omega) (by omega)) h1
      have h10 : ¬ n < 10 := by omega
      have hd1 : 10 ^ k ≤ n / 10 := by
        rw [Nat.le_div_iff_mul_le (by omega)]
        calc 10 ^ k * 10 = 10 ^ (k + 1) := by ring
        _ ≤ n := h1
      have hd2 : n / 10 < 10 ^ (k + 1) := by
        rw [Nat.div_lt_iff_lt_mul (by omega)]
        calc n < 10 ^ (k + 2) := h2
        _ = 10 ^ (k + 1) * 10 := by ring
      rw [decChars, dif_neg h10, List.length_append, ih (n / 10) hd1 hd2]
      simp

theorem digitChar_isDigit (m : Nat) (h : m < 10) :
    (Nat.digitChar m).isDigit = true := by
  interval_cases m <;> decide

theorem decChars_all_digits :
    ∀ (n : Nat), ∀ c ∈ decChars n, c.isDigit = true := by
  intro n
  induction n using Nat.strong_induction_on with
  | _ n ih =>
      intro c hc
      rw [decChars] at hc
      by_cases h10 : n < 10
      · simp [h10] at hc
        rw [hc]
        exact digitChar_isDigit n h10
      · simp [h10] at hc
        rcases hc with hc | hc
        · exact ih (n / 10) (Nat.div_lt_self (by omega) (by omega)) c hc
        · rw [hc]
          exact digitChar_isDigit (n % 10) (Nat.mod_lt n (by omega))

/-- A number drawn by `random.randint(10000, 99999)` prints as a 5-character
digit string. -/
theorem repr_five_digits (n : Nat) (h1 : 10000 ≤ n) (h2 : n ≤ 99999) :
    (Nat.repr n).length = 5 ∧ ∀ c ∈ (Nat.repr n).data, c.isDigit = true := by
  rw [repr_eq_decChars]
  constructor
  · show (decChars n).length = 5
    have := decChars_length 4 n (by norm_num; omega) (by norm_num; omega)
    omega
  · intro c hc
    exact decChars_all_digits n c hc

/-! ## The Ephemeral Artifact Issuer, OTP half
(`api/services/otp_service.py`)

`random.randint(10000, 99999)` is modelled by a `rand` parameter together
with the range hypothesis `10000 ≤ rand ≤ 99999` at the theorems;
`datetime.now().isoformat()` by an opaque `now` string. A raised exception is
modelled as `Except.error` carrying the exception message. -/

/-- `x or 0` applied to a `kv.get` result. -/
def pyOrZero (o : Option JVal) : JVal :=
  match o with
  | none => .jnum 0
  | some v => if pyFalsy v then .jnum 0 else v

/-- The integer Python would use for comparing/adding the value; `none` is a
`TypeError` (never reached on the states the service itself produces, whose
`rate:*` keys always hold numbers). -/
def pyIntVal : JVal → Option Int
  | .jnum n => some n
  | .jbool b => some (if b then 1 else 0)
  | _ => none

/-- The `otp_data` dict stored by `generate_otp`. -/
def otpRecord (phone code now : String) (used : Bool) : JVal :=
  .jobj [("phone_number", .jstr phone), ("code", .jstr code),
         ("created_at", .jstr now), ("used", .jbool used)]

/-- `OTPService.generate_otp`: rate-limit check against `rate:<phone>`
(raising when `attempts >= 3`), store of the OTP record under
`otp:<phone>:<code>` with ttl 300, then `increment` of the rate key and, on
the first attempt, a `set` of the rate key to 1 with ttl 3600. -/
def generate_otp (kv : LocalStore) (phone : String) (rand : Nat)
    (now : String) : Except String String × LocalStore :=
  let rate_key := "rate:" ++ phone
  match pyIntVal (pyOrZero (localGet kv rate_key)) with
  | none => (.error "TypeError", kv)
  | some attempts =>
      if attempts ≥ 3 then
        (.error "Too many OTP requests. Please try again later.", kv)
      else
        let code := Nat.repr rand
        let key := "otp:" ++ phone ++ ":" ++ code
        let kv1 := localSet kv key (otpRecord phone code now false) (some 300)
        let kv2 := (localIncrement kv1 rate_key 1).2
        let kv3 :=
          if attempts = 0 then localSet kv2 rate_key (.jnum 1) (some 3600)
          else kv2
        (.ok code, kv3)

/-- `OTPService.verify_otp`: absent record → `(False, "Invalid code or
expired")`; `used` truthy → `(False, "Code already used")`; otherwise the
record is re-stored with `used = True` and ttl 60 and the result is
`(True, "Code verified successfully")`. -/
def verify_otp (kv : LocalStore) (phone code : String) :
    (Bool × String) × LocalStore :=
  let key := "otp:" ++ phone ++ ":" ++ code
  match localGet kv key with
  | none => ((false, "Invalid code or expired"), kv)
  | some d =>
      if pyFalsy d then ((false, "Invalid code or expired"), kv)
      else if optTruthy (d.getField "used") then
        ((false, "Code already used"), kv)
      else
        ((true, "Code verified successfully"),
          localSet kv key (d.setField "used" (.jbool true)) (some 60))

/-! ## The Ephemeral Artifact Issuer, coupon half
(`api/services/coupon_service.py`)

`random.choices(string.ascii_uppercase + string.digits, k=6)` is modelled by
a `picks : List Char` parameter; that the draw picks 6 characters out of that
population is the range hypothesis at the theorems.  `datetime` values that
the service compares (`expires_at` against `utcnow()`) are modelled as
integer timestamps, `isoformat` serialization as storing that integer. -/

/-- `string.ascii_uppercase + string.digits`, the population
`_generate_unique_code` draws from. -/
def couponAlphabet : List Char := "ABCDEFGHIJKLMNOPQRSTUVWXYZ0123456789".data

/-- `CouponService._generate_unique_code`: `''.join(random.choices(...))` on
the drawn characters. -/
def generate_unique_code (picks : List Char) : String := String.mk picks

/-- `CouponCodeResponse` (from `api/models/schemas.py`). -/
structure CouponCodeResponse where
  coupon_code : String
  expires_at : Int
  user_id : String
  deriving DecidableEq

/-- `CouponService.generate_coupon`: stores the coupon record under
`coupon:<code>` and a reverse-lookup record under `user_coupon:<user_id>`,
both with ttl `expiry_minutes * 60 = 300`, and returns the response. -/
def generate_coupon (kv : LocalStore) (user_id : String) (picks : List Char)
    (now : Int) : CouponCodeResponse × LocalStore :=
  let coupon_code := generate_unique_code picks
  let expires_at := now + 5 * 60
  let kv1 := localSet kv ("coupon:" ++ coupon_code)
    (.jobj [("user_id", .jstr user_id), ("expires_at", .jnum expires_at),
            ("used", .jbool false)]) (some (5 * 60))
  let kv2 := localSet kv1 ("user_coupon:" ++ user_id)
    (.jobj [("coupon_code", .jstr coupon_code),
            ("expires_at", .jnum expires_at)]) (some (5 * 60))
  (⟨coupon_code, expires_at, user_id⟩, kv2)

/-- `CouponService.validate_coupon`: the if-chain of the source, returning a
plain boolean and writing nothing (the single-use marking at source lines
78-85 is commented out).  `Except.error` models the exception a record with
an unparseable `expires_at` would raise (never reached on records written by
`generate_coupon`). -/
def validate_coupon (kv : LocalStore) (coupon_code user_id : String)
    (now : Int) : Except String Bool :=
  match localGet kv ("coupon:" ++ coupon_code) with
  | none => .ok false
  | some d =>
      if pyFalsy d then .ok false
      else if d.getField "user_id" ≠ some (.jstr user_id) then .ok false
      else if optTruthy (d.getField "used") then .ok false
      else
        match d.getField "expires_at" with
        | some (.jnum expires_at) =>
            if now > expires_at then .ok false else .ok true
        | _ => .error "fromisoformat"

/-- The check of `validate_coupon` that rejects a request, in source order;
`accepted` when none does.  This mirrors the same if-chain and names the
branch taken. -/
inductive CouponOutcome where
  | notFound
  | ownerMismatch
  | alreadyUsed
  | expired
  | parseFailure
  | accepted
  deriving DecidableEq

/-- Which branch of `CouponService.validate_coupon` decides the result. -/
def validate_coupon_outcome (kv : LocalStore) (coupon_code user_id : String)
    (now : Int) : CouponOutcome :=
  match localGet kv ("coupon:" ++ coupon_code) with
  | none => .notFound
  | some d =>
      if pyFalsy d then .notFound
      else if d.getField "user_id" ≠ some (.jstr user_id) then .ownerMismatch
      else if optTruthy (d.getField "used") then .alreadyUsed
      else
        match d.getField "expires_at" with
        | some (.jnum expires_at) =>
            if now > expires_at then .expired else .accepted
        | _ => .parseFailure

/-! ## The Sequence Guard and Notification Sequencer
(`api/services/delivery_service.py` and `api/services/flight_update.py`)

Both services guard with an in-process `active_jobs : dict[str, bool]`.  A
background run is modelled as a trace of its observable events (non-blocking
sleeps, Notifier calls, store writes) plus the resulting store and guard
states.  The Notifier collaborator is external; a notifier failure at step
`k` (`failAt = some k`) truncates the trace at that call, and the `finally`
block runs in every case. -/

/-- The `active_jobs` guard dict of a service instance. -/
abbrev Jobs := List (String × Bool)

/-- One observable event of a background sequence run. -/
inductive SeqEvent where
  | sleep (seconds : Int)
  | notifyDelivery (status : String)
  | notifyLiveActivity (event : String) (event_updates : JVal)
  | kvWrite (key : String)
  deriving DecidableEq

/-- `DeliveryRequest` (from `api/models/schemas.py`), the fields the delivery
service reads. -/
structure DeliveryRequest where
  tracking_id : String
  demo_mode : Option Bool
  notification_interval : Option Int
  deriving DecidableEq

/-- The scheduling response dict of `schedule_delivery_sequence`; the
`demo_mode`/`notification_interval` keys are only added in demo mode. -/
structure DeliveryResponse where
  status : String
  message : String
  tracking_id : Option String
  demo_mode : Option Bool
  notification_interval : Option Int
  deriving DecidableEq

/-- `request.notification_interval if request.notification_interval else 60`
(Python truthiness: `None` and `0` both fall back to 60). -/
def deliveryInterval (r : DeliveryRequest) : Int :=
  match r.notification_interval with
  | some n => if n = 0 then 60 else n
  | none => 60

/-- Whether `request.demo_mode` is truthy. -/
def demoOn (r : DeliveryRequest) : Bool := r.demo_mode.getD false

/-- `DeliveryService.schedule_delivery_sequence`: reject when
`active_jobs[tracking_id]` is truthy, otherwise mark active and spawn the
background sequence.  The third component records whether
`asyncio.create_task` was called. -/
def schedule_delivery_sequence (jobs : Jobs) (r : DeliveryRequest) :
    DeliveryResponse × Jobs × Bool :=
  if lookupK jobs r.tracking_id = some true then
    (⟨"error", "Already tracking " ++ r.tracking_id, none, none, none⟩,
      jobs, false)
  else
    let jobs1 := setK jobs r.tracking_id true
    let interval := deliveryInterval r
    (⟨"success", "Started tracking " ++ r.tracking_id, some r.tracking_id,
      if demoOn r then some true else none,
      if demoOn r then some interval else none⟩, jobs1, true)

/-- The event trace of `DeliveryService._send_delivery_sequence`: notify,
sleep, notify, sleep, notify — no store access of any kind.  `failAt = some
k` is the Notifier raising at call `k`, truncating the trace there. -/
def send_delivery_sequence_trace (interval : Int) (failAt : Option Nat) :
    List SeqEvent :=
  let full : List SeqEvent :=
    [.notifyDelivery "Delivery Pickup", .sleep interval,
     .notifyDelivery "In transit", .sleep interval,
     .notifyDelivery "Delivered"]
  match failAt with
  | some 0 => full.take 0
  | some 1 => full.take 2
  | some 2 => full.take 4
  | _ => full

/-- A full run of the delivery background task: the `try` produces the
(possibly truncated) trace and the `finally` always sets
`active_jobs[tracking_id] = False`. -/
def run_delivery_sequence (jobs : Jobs) (r : DeliveryRequest)
    (interval : Int) (failAt : Option Nat) : List SeqEvent × Jobs :=
  (send_delivery_sequence_trace interval failAt,
    setK jobs r.tracking_id false)

/-! ## Flight live-activity service (`api/services/flight_update.py`) -/

/-- `FlightUpdateContentState` (from `api/models/schemas.py`). -/
structure FlightUpdateContentState where
  gate : String
  boardingTime : Option String
  status : Option String
  group : Option String
  deriving DecidableEq

/-- `FlightUpdateLiveActivity` (from `api/models/schemas.py`), the fields
the flight service reads. -/
structure FlightUpdateLiveActivity where
  activity_type : String
  activity_id : String
  content_state : FlightUpdateContentState
  deriving DecidableEq

/-- `x or {}` applied to a `kv.get` result
(`FlightLiveActivityService._kv_update_state` and `_kv_mark_ended`). -/
def pyOrEmptyObj (o : Option JVal) : JVal :=
  match o with
  | none => .jobj []
  | some v => if pyFalsy v then .jobj [] else v

/-- An optional string serialized to JSON (`None` becomes `null`). -/
def optStrToJ : Option String → JVal
  | none => .jnull
  | some s => .jstr s

/-- The key `live:flightUpdate:<activity_id>`. -/
def flightKey (activity_id : String) : String :=
  "live:flightUpdate:" ++ activity_id

/-- The record `FlightLiveActivityService.register` builds and stores. -/
def registerRecord (req : FlightUpdateLiveActivity) (now : String) : JVal :=
  .jobj [("activity_id", .jstr req.activity_id),
         ("type", .jstr req.activity_type),
         ("state", .jobj [("gate", .jstr req.content_state.gate),
                          ("boardingTime", optStrToJ req.content_state.boardingTime)]),
         ("status", .jstr "active"),
         ("created_at", .jstr now),
         ("updated_at", .jstr now)]

/-- `FlightLiveActivityService.register`: unconditionally overwrite the
stored record (no ttl). -/
def register (kv : LocalStore) (req : FlightUpdateLiveActivity)
    (now : String) : LocalStore :=
  localSet kv (flightKey req.activity_id) (registerRecord req now) none

/-- `FlightLiveActivityService._kv_update_state`: read the record (`or {}`),
conditionally set `state.status` and `state.group` (Python truthiness guards
both `if status:` and `if group:`), refresh `updated_at`, write back. -/
def kv_update_state (kv : LocalStore) (activity_id : String)
    (status : Option String) (group : Option JVal) (now : String) :
    LocalStore :=
  let key := flightKey activity_id
  let r0 := pyOrEmptyObj (localGet kv key)
  let r1 := match status with
    | some s => if s = "" then r0 else r0.setNested "state" "status" (.jstr s)
    | none => r0
  let r2 := match group with
    | some g => if pyFalsy g then r1 else r1.setNested "state" "group" g
    | none => r1
  localSet kv key (r2.setField "updated_at" (.jstr now)) none

/-- `FlightLiveActivityService._kv_mark_ended`: read the record (`or {}`),
set the top-level `status` to `"ended"`, refresh `updated_at`, write back. -/
def kv_mark_ended (kv : LocalStore) (activity_id : String) (now : String) :
    LocalStore :=
  let key := flightKey activity_id
  let r0 := pyOrEmptyObj (localGet kv key)
  localSet kv key
    ((r0.setField "status" (.jstr "ended")).setField "updated_at" (.jstr now))
    none

/-- The `event_updates` dict of flight step 1. -/
def flightUpdates1 : JVal := .jobj [("status", .jstr "boarding")]

/-- The `event_updates` dict of flight step 2. -/
def flightUpdates2 : JVal :=
  .jobj [("status", .jstr "finalCall"), ("group", .jnum 2)]

/-- The `event_updates` dict of flight step 3 (the `end` event). -/
def flightUpdates3 : JVal :=
  .jobj [("status", .jstr "closed"), ("group", .jstr "")]

/-- `FlightLiveActivityService._run_emoji_sequence`: sleep → notify → store
write, three times, the third notify using the `"end"` event; the `finally`
always sets `active_jobs[activity_id] = False`.  `failAt = some k` is the
Notifier raising at step `k`, which skips that step's store write and the
rest of the run.  `t1 t2 t3` are the `utcnow` strings of the three store
writes. -/
def run_emoji_sequence (kv : LocalStore) (jobs : Jobs) (activity_id : String)
    (delay : Int) (t1 t2 t3 : String) (failAt : Option Nat) :
    List SeqEvent × LocalStore × Jobs :=
  let key := flightKey activity_id
  let jobsEnd := setK jobs activity_id false
  if failAt = some 0 then ([.sleep delay], kv, jobsEnd)
  else
    let kv1 := kv_update_state kv activity_id (some "boarding") none t1
    let ev1 : List SeqEvent :=
      [.sleep delay, .notifyLiveActivity "update" flightUpdates1, .kvWrite key]
    if failAt = some 1 then (ev1 ++ [.sleep delay], kv1, jobsEnd)
    else
      let kv2 := kv_update_state kv1 activity_id (some "finalCall")
        (some (.jnum 2)) t2
      let ev2 : List SeqEvent :=
        [.sleep delay, .notifyLiveActivity "update" flightUpdates2,
         .kvWrite key]
      if failAt = some 2 then (ev1 ++ ev2 ++ [.sleep delay], kv2, jobsEnd)
      else
        let kv3 := kv_mark_ended kv2 activity_id t3
        let ev3 : List SeqEvent :=
          [.sleep delay, .notifyLiveActivity "end" flightUpdates3,
           .kvWrite key]
        (ev1 ++ ev2 ++ ev3, kv3, jobsEnd)

/-- The response dict of `schedule_emoji_sequence`: `{"status": "error",
"message": ...}` or `{"status": "started", "activity_id": ...}`. -/
structure FlightScheduleResponse where
  status : String
  message : Option String
  activity_id : Option String
  deriving DecidableEq

/-- `FlightLiveActivityService.schedule_emoji_sequence`: reject while
`active_jobs.get(aid)` is truthy; otherwise persist the baseline record via
`register`, mark active, and spawn the runner.  The last component records
whether `asyncio.create_task` was called. -/
def schedule_emoji_sequence (kv : LocalStore) (jobs : Jobs)
    (payload : FlightUpdateLiveActivity) (now : String) :
    FlightScheduleResponse × LocalStore × Jobs × Bool :=
  let aid := payload.activity_id
  if lookupK jobs aid = some true then
    (⟨"error", some ("Sequence already running for " ++ aid), none⟩,
      kv, jobs, false)
  else
    let kv1 := register kv payload now
    let jobs1 := setK jobs aid true
    (⟨"started", none, some aid⟩, kv1, jobs1, true)

/-! ## HTTP router model for OTP issuance (`api/routers/auth.py`)

Only the part around the service call matters for the claims: the router
wraps `otp_service.generate_otp` in `try/except` and converts any raised
exception into an `OTPResponse(status="error", message=str(e))`. -/

/-- `OTPResponse` (from `api/models/schemas.py`). -/
structure OTPResponse where
  status : String
  message : String
  signal_code : Option String
  debug : Option String
  deriving DecidableEq

/-- `auth.generate_otp` (the `/auth/otp` endpoint): the `request_otp` guard,
then the service call with its `except Exception` conversion. -/
def router_generate_otp (kv : LocalStore) (phone : String) (rand : Nat)
    (now : String) (request_otp : Bool) : OTPResponse × LocalStore :=
  if !request_otp then
    (⟨"error", "request_otp must be \x27true\x27 to generate an OTP",
      none, none⟩, kv)
  else
    match generate_otp kv phone rand now with
    | (.ok code, kv1) =>
        (⟨"success", "OTP sent to " ++ phone, some code,
          some "In production, don\x27t return the code!"⟩, kv1)
    | (.error e, kv1) => (⟨"error", e, none, none⟩, kv1)

/-! ## Helper lemmas about the runners -/

/-- Whatever the Notifier does, the delivery `finally` frees the guard. -/
theorem run_delivery_sequence_jobs (jobs : Jobs) (r : DeliveryRequest)
    (interval : Int) (failAt : Option Nat) :
    (run_delivery_sequence jobs r interval failAt).2 =
      setK jobs r.tracking_id false := rfl

/-- Whatever the Notifier does, the flight `finally` frees the guard. -/
theorem run_emoji_sequence_jobs (kv : LocalStore) (jobs : Jobs)
    (aid : String) (delay : Int) (t1 t2 t3 : String) (failAt : Option Nat) :
    (run_emoji_sequence kv jobs aid delay t1 t2 t3 failAt).2.2 =
      setK jobs aid false := by
  unfold run_emoji_sequence
  split
  · rfl
  · split
    · rfl
    · split
      · rfl
      · rfl

/-- C1: for every entity_id, at most one sequence job is active at a time.
While a job for `tracking_id`/`activity_id` is active, a second trigger of
`schedule_delivery_sequence` / `schedule_emoji_sequence` for the same id
returns an error result, leaves the guard map unchanged and spawns no task;
and after the running job's background runner terminates by any exit path
(`failAt` ranges over success and every notifier-failure point), a new
trigger for that id succeeds again (and spawns). -/
theorem seq_guard_single_active_job
    (jobsD : Jobs) (r : DeliveryRequest)
    (kvF kvS : LocalStore) (jobsF : Jobs)
    (payload : FlightUpdateLiveActivity) (nowF : String)
    (interval delay : Int) (failAt : Option Nat) (t1 t2 t3 : String)
    (hD : lookupK jobsD r.tracking_id = some true)
    (hF : lookupK jobsF payload.activity_id = some true) :
    ((schedule_delivery_sequence jobsD r).1.status = "error" ∧
     (schedule_delivery_sequence jobsD r).2.1 = jobsD ∧
     (schedule_delivery_sequence jobsD r).2.2 = false) ∧
    ((schedule_emoji_sequence kvF jobsF payload nowF).1.status = "error" ∧
     (schedule_emoji_sequence kvF jobsF payload nowF).2.1 = kvF ∧
     (schedule_emoji_sequence kvF jobsF payload nowF).2.2.1 = jobsF ∧
     (schedule_emoji_sequence kvF jobsF payload nowF).2.2.2 = false) ∧
    ((schedule_delivery_sequence
        (run_delivery_sequence jobsD r interval failAt).2 r).1.status =
        "success" ∧
     (schedule_delivery_sequence
        (run_delivery_sequence jobsD r interval failAt).2 r).2.2 = true) ∧
    ((schedule_emoji_sequence kvS
        (run_emoji_sequence kvF jobsF payload.activity_id delay t1 t2 t3
          failAt).2.2 payload nowF).1.status = "started" ∧
     (schedule_emoji_sequence kvS
        (run_emoji_sequence kvF jobsF payload.activity_id delay t1 t2 t3
          failAt).2.2 payload nowF).2.2.2 = true) := by
  refine ⟨⟨?_, ?_, ?_⟩, ⟨?_, ?_, ?_, ?_⟩, ⟨?_, ?_⟩, ⟨?_, ?_⟩⟩ <;>
    simp [schedule_delivery_sequence, schedule_emoji_sequence,
      run_delivery_sequence_jobs, run_emoji_sequence_jobs,
      send_delivery_sequence_trace, lookupK_setK_same, hD, hF]

/-- Witness for C1 at tracking_id `"T1"` and activity_id `"A1"`, with both
guards held and a successful (no-failure) run releasing them. -/
theorem seq_guard_single_active_job_witness :
    (lookupK [("T1", true)] "T1" = some true ∧
     lookupK [("A1", true)] "A1" = some true) ∧
    ((schedule_delivery_sequence [("T1", true)]
        ⟨"T1", none, none⟩).1.status = "error" ∧
     (schedule_delivery_sequence [("T1", true)] ⟨"T1", none, none⟩).2.1 =
       [("T1", true)] ∧
     (schedule_delivery_sequence [("T1", true)] ⟨"T1", none, none⟩).2.2 =
       false) ∧
    ((schedule_emoji_sequence [] [("A1", true)]
        ⟨"flightUpdate", "A1", ⟨"G", none, none, none⟩⟩ "t").1.status =
       "error" ∧
     (schedule_emoji_sequence [] [("A1", true)]
        ⟨"flightUpdate", "A1", ⟨"G", none, none, none⟩⟩ "t").2.1 = [] ∧
     (schedule_emoji_sequence [] [("A1", true)]
        ⟨"flightUpdate", "A1", ⟨"G", none, none, none⟩⟩ "t").2.2.1 =
       [("A1", true)] ∧
     (schedule_emoji_sequence [] [("A1", true)]
        ⟨"flightUpdate", "A1", ⟨"G", none, none, none⟩⟩ "t").2.2.2 =
       false) ∧
    ((schedule_delivery_sequence
        (run_delivery_sequence [("T1", true)] ⟨"T1", none, none⟩ 1
          none).2 ⟨"T1", none, none⟩).1.status = "success" ∧
     (schedule_delivery_sequence
        (run_delivery_sequence [("T1", true)] ⟨"T1", none, none⟩ 1
          none).2 ⟨"T1", none, none⟩).2.2 = true) ∧
    ((schedule_emoji_sequence []
        (run_emoji_sequence [] [("A1", true)] "A1" 1 "t1" "t2" "t3"
          none).2.2 ⟨"flightUpdate", "A1", ⟨"G", none, none, none⟩⟩
        "t").1.status = "started" ∧
     (schedule_emoji_sequence []
        (run_emoji_sequence [] [("A1", true)] "A1" 1 "t1" "t2" "t3"
          none).2.2 ⟨"flightUpdate", "A1", ⟨"G", none, none, none⟩⟩
        "t").2.2.2 = true) :=
  ⟨⟨by decide, by decide⟩,
   seq_guard_single_active_job [("T1", true)] ⟨"T1", none, none⟩ []
     [] [("A1", true)] ⟨"flightUpdate", "A1", ⟨"G", none, none, none⟩⟩ "t"
     1 1 none "t1" "t2" "t3" (by decide) (by decide)⟩

/-! ## C2: TTL visibility -/

/-- C2 counterexample: the claim "get returns absent for any elapsed time
>= T regardless of backing implementation" is false for the in-memory
fallback.  A value written with `ttl = 1` is still returned by `get` 5
seconds later (the fallback records the ttl but `get` never checks a clock),
while the claim requires absent at any elapsed time `>= 1`. -/
theorem kv_ttl_fallback_counterexample :
    1 ≤ 5 ∧
    localGetAt (localSet [] "k" (.jstr "v") (some 1)) "k" 5 =
      some (.jstr "v") := by
  constructor
  · decide
  · rfl

/-- C2 amended: for a key written with `ttl = T` at time `t0`, the remote
backend (Redis `SETEX`, modelled from the spec) returns the value while the
elapsed time is `< T` and absent once it is `>= T`; the in-memory fallback
records the ttl but never enforces it, so its `get` returns the stored value
at every elapsed time. -/
theorem kv_ttl_enforced_only_by_remote_backend
    (key : String) (v : JVal) (ttl t0 e : Nat) :
    (e < ttl →
      remoteGetAt (remoteSetex [] key ttl v t0) key (t0 + e) = some v) ∧
    (e ≥ ttl →
      remoteGetAt (remoteSetex [] key ttl v t0) key (t0 + e) = none) ∧
    localGetAt (localSet [] key v (some ttl)) key (t0 + e) = some v := by
  refine ⟨?_, ?_, ?_⟩
  · intro h
    simp [remoteGetAt, remoteSetex, lookupK_setK_same]
    omega
  · intro h
    simp [remoteGetAt, remoteSetex, lookupK_setK_same]
    omega
  · simp [localGetAt, localGet_localSet_same]

/-- Witness for C2 amended at `ttl = 1`: visible at elapsed 0 on the remote
backend, absent at elapsed 5 there, still visible at elapsed 5 on the
fallback. -/
theorem kv_ttl_enforced_only_by_remote_backend_witness :
    remoteGetAt (remoteSetex [] "k" 1 (.jstr "v") 10) "k" (10 + 0) =
      some (.jstr "v") ∧
    remoteGetAt (remoteSetex [] "k" 1 (.jstr "v") 10) "k" (10 + 5) = none ∧
    localGetAt (localSet [] "k" (.jstr "v") (some 1)) "k" (10 + 5) =
      some (.jstr "v") :=
  ⟨(kv_ttl_enforced_only_by_remote_backend "k" (.jstr "v") 1 10 0).1
     (by decide),
   (kv_ttl_enforced_only_by_remote_backend "k" (.jstr "v") 1 10 5).2.1
     (by decide),
   (kv_ttl_enforced_only_by_remote_backend "k" (.jstr "v") 1 10 5).2.2⟩

/-! ## C3: sequencer traces -/

/-- Number of store writes in an event trace. -/
def kvWriteCount (tr : List SeqEvent) : Nat :=
  tr.countP (fun e => match e with | .kvWrite _ => true | _ => false)

/-- C3 counterexample: a started delivery sequence (tracking_id "T1",
1-second interval, no notifier failure) performs no store write at all —
its trace is notify, sleep, notify, sleep, notify — so "after each step
writes a state snapshot ... keyed by the entity_id" is false, and so is
"sleeps steps[i].delay_before before invoking the Notifier" for its first
step, which is sent with no preceding sleep. -/
theorem delivery_sequence_no_snapshot_counterexample :
    (run_delivery_sequence [("T1", true)] ⟨"T1", none, none⟩ 1 none).1 =
      [.notifyDelivery "Delivery Pickup", .sleep 1,
       .notifyDelivery "In transit", .sleep 1,
       .notifyDelivery "Delivered"] ∧
    kvWriteCount
      (run_delivery_sequence [("T1", true)] ⟨"T1", none, none⟩ 1 none).1 =
      0 := by
  constructor
  · rfl
  · rfl

/-- C3 amended: the Notifier is invoked in the declared step order in both
sequencers.  The delivery sequence sends its first notification immediately,
sleeps the interval only between consecutive steps, and writes no state to
the store.  The flight sequence sleeps `step_delay` before every one of its
three steps and, after each step's notifier call, writes the record keyed
`live:flightUpdate:<activity_id>` back to the store (its
`status`/`state.status` and `updated_at` fields — not a
`{current_step, label}` snapshot, see the flight theorems). -/
theorem sequencer_traces_amended (interval delay : Int) (kv : LocalStore)
    (jobs : Jobs) (aid : String) (t1 t2 t3 : String) :
    send_delivery_sequence_trace interval none =
      [.notifyDelivery "Delivery Pickup", .sleep interval,
       .notifyDelivery "In transit", .sleep interval,
       .notifyDelivery "Delivered"] ∧
    kvWriteCount (send_delivery_sequence_trace interval none) = 0 ∧
    (run_emoji_sequence kv jobs aid delay t1 t2 t3 none).1 =
      [.sleep delay, .notifyLiveActivity "update" flightUpdates1,
       .kvWrite (flightKey aid),
       .sleep delay, .notifyLiveActivity "update" flightUpdates2,
       .kvWrite (flightKey aid),
       .sleep delay, .notifyLiveActivity "end" flightUpdates3,
       .kvWrite (flightKey aid)] := by
  refine ⟨rfl, rfl, ?_⟩
  simp [run_emoji_sequence]

/-! ## OTP issuance/verification step lemmas -/

/-- `generate_otp` on a phone with no rate entry: issues the code, stores the
record with ttl 300, and leaves the rate counter at 1 (ttl 3600). -/
theorem generate_otp_fresh (kv : LocalStore) (phone : String) (rand : Nat)
    (now : String) (h : localGet kv ("rate:" ++ phone) = none) :
    generate_otp kv phone rand now =
      (.ok (Nat.repr rand),
       localSet
         (localSet
           (localSet kv ("otp:" ++ phone ++ ":" ++ Nat.repr rand)
             (otpRecord phone (Nat.repr rand) now false) (some 300))
           ("rate:" ++ phone) (.jnum 1) none)
         ("rate:" ++ phone) (.jnum 1) (some 3600)) := by
  have hx : localGet
      (localSet kv ("otp:" ++ phone ++ ":" ++ Nat.repr rand)
        (otpRecord phone (Nat.repr rand) now false) (some 300))
      ("rate:" ++ phone) = none := by
    rw [localGet_localSet_other _ _ _ _ _ (otp_key_ne_rate_key _ _ _)]
    exact h
  simp [generate_otp, h, pyOrZero, pyIntVal, localIncrement, hx]

/-- `generate_otp` with a numeric rate counter `n < 3`: issues the code and
bumps the counter to `n + 1` (when `n = 0` via the extra ttl-setting write,
which also stores `0 + 1 = 1`). -/
theorem generate_otp_num (kv : LocalStore) (phone : String) (rand : Nat)
    (now : String) (n : Int)
    (h : localGet kv ("rate:" ++ phone) = some (.jnum n)) (hn : n < 3) :
    (generate_otp kv phone rand now).1 = .ok (Nat.repr rand) ∧
    localGet (generate_otp kv phone rand now).2 ("rate:" ++ phone) =
      some (.jnum (n + 1)) := by
  have hx : localGet
      (localSet kv ("otp:" ++ phone ++ ":" ++ Nat.repr rand)
        (otpRecord phone (Nat.repr rand) now false) (some 300))
      ("rate:" ++ phone) = some (.jnum n) := by
    rw [localGet_localSet_other _ _ _ _ _ (otp_key_ne_rate_key _ _ _)]
    exact h
  have hlt : ¬ (3 ≤ n) := by omega
  by_cases hn0 : n = 0
  · subst hn0
    simp [generate_otp, h, pyOrZero, pyFalsy, pyIntVal, localIncrement, hx,
      localGet_localSet_same]
  · simp [generate_otp, h, pyOrZero, pyFalsy, pyIntVal, hn0, hlt,
      localIncrement, hx, localGet_localSet_same]

/-- `generate_otp` with the rate counter at the cap raises (`Except.error`)
and leaves the store untouched. -/
theorem generate_otp_limited (kv : LocalStore) (phone : String) (rand : Nat)
    (now : String) (n : Int)
    (h : localGet kv ("rate:" ++ phone) = some (.jnum n)) (hn : 3 ≤ n) :
    generate_otp kv phone rand now =
      (.error "Too many OTP requests. Please try again later.", kv) := by
  have hn0 : n ≠ 0 := by omega
  simp [generate_otp, h, pyOrZero, pyFalsy, pyIntVal, hn0, hn]

/-- First verification of a stored, unused OTP record: succeeds and
re-stores the record with `used = True` and ttl 60. -/
theorem verify_otp_first (kv : LocalStore) (phone code created : String)
    (h : localGet kv ("otp:" ++ phone ++ ":" ++ code) =
      some (otpRecord phone code created false)) :
    verify_otp kv phone code =
      ((true, "Code verified successfully"),
       localSet kv ("otp:" ++ phone ++ ":" ++ code)
         ((otpRecord phone code created false).setField "used" (.jbool true))
         (some 60)) := by
  simp [verify_otp, h, otpRecord, pyFalsy, optTruthy, JVal.getField,
    lookupK, setK]

/-- Verification when the stored record's `used` flag is truthy: returns the
already-used reason and writes nothing. -/
theorem verify_otp_used (kv : LocalStore) (phone code : String) (d : JVal)
    (h : localGet kv ("otp:" ++ phone ++ ":" ++ code) = some d)
    (hd : pyFalsy d = false)
    (hu : optTruthy (d.getField "used") = true) :
    verify_otp kv phone code = ((false, "Code already used"), kv) := by
  simp [verify_otp, h, hd, hu]

/-- C4: issuing an OTP (for a phone with no pending rate entry) returns a
5-digit numeric code; verifying the correct phone/code pair succeeds exactly
once — the first verification returns valid=true and marks the code used,
and a second verification of the same code returns valid=false with the
already-used reason. -/
theorem otp_issue_verify_once (kv : LocalStore) (phone : String)
    (rand : Nat) (now : String)
    (hrate : localGet kv ("rate:" ++ phone) = none)
    (h1 : 10000 ≤ rand) (h2 : rand ≤ 99999) :
    (generate_otp kv phone rand now).1 = .ok (Nat.repr rand) ∧
    (Nat.repr rand).length = 5 ∧
    (Nat.repr rand).data.all Char.isDigit = true ∧
    (verify_otp (generate_otp kv phone rand now).2 phone
        (Nat.repr rand)).1 = (true, "Code verified successfully") ∧
    (verify_otp
        (verify_otp (generate_otp kv phone rand now).2 phone
          (Nat.repr rand)).2 phone (Nat.repr rand)).1 =
      (false, "Code already used") := by
  have hg := generate_otp_fresh kv phone rand now hrate
  have hotp : localGet (generate_otp kv phone rand now).2
      ("otp:" ++ phone ++ ":" ++ Nat.repr rand) =
      some (otpRecord phone (Nat.repr rand) now false) := by
    rw [hg]
    rw [localGet_localSet_other _ _ _ _ _
      (rate_key_ne_otp_phone_code_key _ _ _)]
    rw [localGet_localSet_other _ _ _ _ _
      (rate_key_ne_otp_phone_code_key _ _ _)]
    exact localGet_localSet_same _ _ _ _
  have hv1 := verify_otp_first _ phone (Nat.repr rand) now hotp
  have hotp2 : localGet
      (verify_otp (generate_otp kv phone rand now).2 phone
        (Nat.repr rand)).2 ("otp:" ++ phone ++ ":" ++ Nat.repr rand) =
      some ((otpRecord phone (Nat.repr rand) now false).setField "used"
        (.jbool true)) := by
    rw [hv1]
    exact localGet_localSet_same _ _ _ _
  have hv2 := verify_otp_used _ phone (Nat.repr rand) _ hotp2
    (by simp [otpRecord, JVal.setField, setK, pyFalsy])
    (by simp [otpRecord, JVal.setField, setK, optTruthy, JVal.getField,
          lookupK, pyFalsy])
  refine ⟨by rw [hg], (repr_five_digits rand h1 h2).1, ?_, by rw [hv1],
    by rw [hv2]⟩
  simp only [List.all_eq_true]
  intro c hc
  exact (repr_five_digits rand h1 h2).2 c hc

/-- Witness for C4: phone "+1555", draw 12345, empty store. -/
theorem otp_issue_verify_once_witness :
    localGet [] ("rate:" ++ "+1555") = none ∧
    ((generate_otp [] "+1555" 12345 "t").1 = .ok (Nat.repr 12345) ∧
     (Nat.repr 12345).length = 5 ∧
     (Nat.repr 12345).data.all Char.isDigit = true ∧
     (verify_otp (generate_otp [] "+1555" 12345 "t").2 "+1555"
         (Nat.repr 12345)).1 = (true, "Code verified successfully") ∧
     (verify_otp
         (verify_otp (generate_otp [] "+1555" 12345 "t").2 "+1555"
           (Nat.repr 12345)).2 "+1555" (Nat.repr 12345)).1 =
       (false, "Code already used")) :=
  ⟨rfl,
   otp_issue_verify_once [] "+1555" 12345 "t" rfl (by norm_num)
     (by norm_num)⟩

/-- C5: for an owner with no pending rate entry, four consecutive issue
calls within one window: calls 1-3 succeed — the RateCounter at
`rate:<phone>` is consulted before issuing and incremented to 1, 2, 3 —
and call 4 is rejected as rate-limited (count >= cap 3) without issuing. -/
theorem otp_rate_limit_three_then_reject (kv : LocalStore) (phone : String)
    (r1 r2 r3 r4 : Nat) (n1 n2 n3 n4 : String)
    (h0 : localGet kv ("rate:" ++ phone) = none) :
    (generate_otp kv phone r1 n1).1 = .ok (Nat.repr r1) ∧
    localGet (generate_otp kv phone r1 n1).2 ("rate:" ++ phone) =
      some (.jnum 1) ∧
    (generate_otp (generate_otp kv phone r1 n1).2 phone r2 n2).1 =
      .ok (Nat.repr r2) ∧
    localGet (generate_otp (generate_otp kv phone r1 n1).2 phone r2
        n2).2 ("rate:" ++ phone) = some (.jnum 2) ∧
    (generate_otp (generate_otp (generate_otp kv phone r1 n1).2 phone r2
        n2).2 phone r3 n3).1 = .ok (Nat.repr r3) ∧
    localGet (generate_otp (generate_otp (generate_otp kv phone r1
        n1).2 phone r2 n2).2 phone r3 n3).2 ("rate:" ++ phone) =
      some (.jnum 3) ∧
    generate_otp (generate_otp (generate_otp (generate_otp kv phone r1
        n1).2 phone r2 n2).2 phone r3 n3).2 phone r4 n4 =
      (.error "Too many OTP requests. Please try again later.",
       (generate_otp (generate_otp (generate_otp kv phone r1 n1).2 phone
          r2 n2).2 phone r3 n3).2) := by
  have hg1 := generate_otp_fresh kv phone r1 n1 h0
  have hrate1 : localGet (generate_otp kv phone r1 n1).2
      ("rate:" ++ phone) = some (.jnum 1) := by
    rw [hg1]
    exact localGet_localSet_same _ _ _ _
  have hg2 := generate_otp_num (generate_otp kv phone r1 n1).2 phone r2 n2
    1 hrate1 (by omega)
  have hrate2 : localGet (generate_otp (generate_otp kv phone r1
      n1).2 phone r2 n2).2 ("rate:" ++ phone) = some (.jnum 2) := by
    have := hg2.2
    norm_num at this
    exact this
  have hg3 := generate_otp_num _ phone r3 n3 2 hrate2 (by omega)
  have hrate3 : localGet (generate_otp (generate_otp (generate_otp kv
      phone r1 n1).2 phone r2 n2).2 phone r3 n3).2 ("rate:" ++ phone) =
      some (.jnum 3) := by
    have := hg3.2
    norm_num at this
    exact this
  have hg4 := generate_otp_limited _ phone r4 n4 3 hrate3 (by omega)
  exact ⟨by rw [hg1], hrate1, hg2.1, hrate2, hg3.1, hrate3, hg4⟩

/-- Witness for C5: phone "+1555" on the empty store, draws 11111..44444. -/
theorem otp_rate_limit_three_then_reject_witness :
    localGet [] ("rate:" ++ "+1555") = none ∧
    ((generate_otp [] "+1555" 11111 "t1").1 = .ok (Nat.repr 11111) ∧
     localGet (generate_otp [] "+1555" 11111 "t1").2 ("rate:" ++ "+1555") =
       some (.jnum 1) ∧
     (generate_otp (generate_otp [] "+1555" 11111 "t1").2 "+1555" 22222
         "t2").1 = .ok (Nat.repr 22222) ∧
     localGet (generate_otp (generate_otp [] "+1555" 11111 "t1").2 "+1555"
         22222 "t2").2 ("rate:" ++ "+1555") = some (.jnum 2) ∧
     (generate_otp (generate_otp (generate_otp [] "+1555" 11111
         "t1").2 "+1555" 22222 "t2").2 "+1555" 33333 "t3").1 =
       .ok (Nat.repr 33333) ∧
     localGet (generate_otp (generate_otp (generate_otp [] "+1555" 11111
         "t1").2 "+1555" 22222 "t2").2 "+1555" 33333 "t3").2
       ("rate:" ++ "+1555") = some (.jnum 3) ∧
     generate_otp (generate_otp (generate_otp (generate_otp [] "+1555"
         11111 "t1").2 "+1555" 22222 "t2").2 "+1555" 33333 "t3").2 "+1555"
       44444 "t4" =
       (.error "Too many OTP requests. Please try again later.",
        (generate_otp (generate_otp (generate_otp [] "+1555" 11111
           "t1").2 "+1555" 22222 "t2").2 "+1555" 33333 "t3").2)) :=
  ⟨rfl,
   otp_rate_limit_three_then_reject [] "+1555" 11111 22222 33333 44444
     "t1" "t2" "t3" "t4" rfl⟩

/-! ## C6 and C7: coupon single-use and round trip -/

/-- C6 counterexample: `CouponService.validate_coupon` never sets the `used`
flag (the marking at source lines 78-85 is commented out and the function
performs no store write — its result type here records that).  A coupon
issued to "user123" therefore validates `true` twice in a row, and its
stored `used` flag is still `false`, refuting "a successful verification
transitions its used flag from false to true" and "verifying the same
coupon code twice for its owner cannot return valid=true both times". -/
theorem coupon_reuse_counterexample :
    validate_coupon (generate_coupon [] "user123" "ABC123".data 0).2
      "ABC123" "user123" 10 = .ok true ∧
    validate_coupon (generate_coupon [] "user123" "ABC123".data 0).2
      "ABC123" "user123" 20 = .ok true ∧
    ((localGet (generate_coupon [] "user123" "ABC123".data 0).2
        ("coupon:" ++ "ABC123")).getD .jnull).getField "used" =
      some (.jbool false) := by
  refine ⟨?_, ?_, ?_⟩ <;> rfl

/-- C6 amended: the single-use invariant holds for OTPs — a successful
verification transitions `used` from false to true and every later
verification fails with the already-used reason — but not for coupons:
`validate_coupon` checks the `used` flag yet never sets it (and writes
nothing at all), so the same unexpired coupon validates true repeatedly for
its owner and its stored `used` flag remains false. -/
theorem used_flag_amended (kv kvC : LocalStore)
    (phone code created ccode user : String) (exp now now2 : Int)
    (hOtp : localGet kv ("otp:" ++ phone ++ ":" ++ code) =
      some (otpRecord phone code created false))
    (hC : localGet kvC ("coupon:" ++ ccode) =
      some (.jobj [("user_id", .jstr user), ("expires_at", .jnum exp),
                   ("used", .jbool false)]))
    (h1 : now ≤ exp) (h2 : now2 ≤ exp) :
    (verify_otp kv phone code).1 = (true, "Code verified successfully") ∧
    ((localGet (verify_otp kv phone code).2
        ("otp:" ++ phone ++ ":" ++ code)).getD .jnull).getField "used" =
      some (.jbool true) ∧
    (verify_otp (verify_otp kv phone code).2 phone code).1 =
      (false, "Code already used") ∧
    validate_coupon kvC ccode user now = .ok true ∧
    validate_coupon kvC ccode user now2 = .ok true ∧
    ((localGet kvC ("coupon:" ++ ccode)).getD .jnull).getField "used" =
      some (.jbool false) := by
  have hv1 := verify_otp_first kv phone code created hOtp
  have hused : localGet (verify_otp kv phone code).2
      ("otp:" ++ phone ++ ":" ++ code) =
      some ((otpRecord phone code created false).setField "used"
        (.jbool true)) := by
    rw [hv1]
    exact localGet_localSet_same _ _ _ _
  have hv2 := verify_otp_used _ phone code _ hused
    (by simp [otpRecord, JVal.setField, setK, pyFalsy])
    (by simp [otpRecord, JVal.setField, setK, optTruthy, JVal.getField,
          lookupK, pyFalsy])
  have hno1 : ¬ (now > exp) := by omega
  have hno2 : ¬ (now2 > exp) := by omega
  refine ⟨by rw [hv1], ?_, by rw [hv2], ?_, ?_, ?_⟩
  · rw [hused]
    simp [otpRecord, JVal.setField, setK, JVal.getField, lookupK]
  · simp [validate_coupon, hC, pyFalsy, optTruthy, JVal.getField, lookupK,
      hno1]
  · simp [validate_coupon, hC, pyFalsy, optTruthy, JVal.getField, lookupK,
      hno2]
  · rw [hC]
    simp [JVal.getField, lookupK]

/-- Witness for C6 amended: a stored OTP "12345" for "+1555" and a stored
coupon "ABC123" for "user123", validated at times 10 and 20 before the
expiry 300. -/
theorem used_flag_amended_witness :
    (localGet [("otp:+1555:12345",
        ⟨otpRecord "+1555" "12345" "t" false, some 300⟩)]
      ("otp:" ++ "+1555" ++ ":" ++ "12345") =
        some (otpRecord "+1555" "12345" "t" false) ∧
     localGet [("coupon:ABC123",
        ⟨.jobj [("user_id", .jstr "user123"), ("expires_at", .jnum 300),
                ("used", .jbool false)], some 300⟩)]
      ("coupon:" ++ "ABC123") =
        some (.jobj [("user_id", .jstr "user123"),
                     ("expires_at", .jnum 300),
                     ("used", .jbool false)])) ∧
    ((verify_otp [("otp:+1555:12345",
        ⟨otpRecord "+1555" "12345" "t" false, some 300⟩)] "+1555"
        "12345").1 = (true, "Code verified successfully") ∧
     ((localGet (verify_otp [("otp:+1555:12345",
          ⟨otpRecord "+1555" "12345" "t" false, some 300⟩)] "+1555"
          "12345").2 ("otp:" ++ "+1555" ++ ":" ++ "12345")).getD
        .jnull).getField "used" = some (.jbool true) ∧
     (verify_otp (verify_otp [("otp:+1555:12345",
          ⟨otpRecord "+1555" "12345" "t" false, some 300⟩)] "+1555"
          "12345").2 "+1555" "12345").1 = (false, "Code already used") ∧
     validate_coupon [("coupon:ABC123",
        ⟨.jobj [("user_id", .jstr "user123"), ("expires_at", .jnum 300),
                ("used", .jbool false)], some 300⟩)] "ABC123" "user123"
        10 = .ok true ∧
     validate_coupon [("coupon:ABC123",
        ⟨.jobj [("user_id", .jstr "user123"), ("expires_at", .jnum 300),
                ("used", .jbool false)], some 300⟩)] "ABC123" "user123"
        20 = .ok true ∧
     ((localGet [("coupon:ABC123",
          ⟨.jobj [("user_id", .jstr "user123"), ("expires_at", .jnum 300),
                  ("used", .jbool false)], some 300⟩)]
        ("coupon:" ++ "ABC123")).getD .jnull).getField "used" =
       some (.jbool false)) :=
  ⟨⟨by decide, by decide⟩,
   used_flag_amended
     [("otp:+1555:12345", ⟨otpRecord "+1555" "12345" "t" false, some 300⟩)]
     [("coupon:ABC123",
        ⟨.jobj [("user_id", .jstr "user123"), ("expires_at", .jnum 300),
                ("used", .jbool false)], some 300⟩)]
     "+1555" "12345" "t" "ABC123" "user123" 300 10 20 (by decide)
     (by decide) (by decide) (by decide)⟩

/-- Every character of the coupon population is alphanumeric. -/
theorem coupon_alphabet_isAlphanum :
    couponAlphabet.all Char.isAlphanum = true := by decide

/-- C7: issuing a coupon returns a 6-character alphanumeric code (the 6
drawn characters come from `string.ascii_uppercase + string.digits`);
validating that code as the issuing user before expiry returns true, and
validating it as a different user returns false, decided by the
owner-mismatch check of the validation chain. -/
theorem coupon_round_trip (kv : LocalStore) (user other : String)
    (picks : List Char) (now t1 t2 : Int)
    (hlen : picks.length = 6)
    (hpop : picks.all (fun c => c ∈ couponAlphabet) = true)
    (hne : user ≠ other)
    (ht1 : t1 ≤ now + 5 * 60) (ht2 : t2 ≤ now + 5 * 60) :
    (generate_coupon kv user picks now).1.coupon_code.length = 6 ∧
    (generate_coupon kv user picks
        now).1.coupon_code.data.all Char.isAlphanum = true ∧
    validate_coupon (generate_coupon kv user picks now).2
      (generate_coupon kv user picks now).1.coupon_code user t1 =
      .ok true ∧
    validate_coupon (generate_coupon kv user picks now).2
      (generate_coupon kv user picks now).1.coupon_code other t2 =
      .ok false ∧
    validate_coupon_outcome (generate_coupon kv user picks now).2
      (generate_coupon kv user picks now).1.coupon_code other t2 =
      .ownerMismatch := by
  have hcode : (generate_coupon kv user picks now).1.coupon_code =
      String.mk picks := rfl
  have hlook : localGet (generate_coupon kv user picks now).2
      ("coupon:" ++ String.mk picks) =
      some (.jobj [("user_id", .jstr user),
                   ("expires_at", .jnum (now + 5 * 60)),
                   ("used", .jbool false)]) := by
    show localGet (localSet _ _ _ _) _ = _
    rw [localGet_localSet_other _ _ _ _ _
      (user_coupon_key_ne_coupon_key _ _)]
    exact localGet_localSet_same _ _ _ _
  have hno1 : ¬ (t1 > now + 5 * 60) := by omega
  have hno2 : ¬ (t2 > now + 5 * 60) := by omega
  have hjne : (JVal.jstr user) ≠ (.jstr other) := by
    intro h
    injection h
    contradiction
  refine ⟨?_, ?_, ?_, ?_, ?_⟩
  · rw [hcode, String.length_mk, hlen]
  · rw [hcode]
    simp only [List.all_eq_true] at hpop ⊢
    intro c hc
    have hmem := hpop c hc
    have halpha := coupon_alphabet_isAlphanum
    simp only [List.all_eq_true] at halpha
    exact halpha c (by simpa using hmem)
  · rw [hcode]
    simp [validate_coupon, hlook, pyFalsy, optTruthy, JVal.getField,
      lookupK]
    omega
  · rw [hcode]
    simp [validate_coupon, hlook, pyFalsy, optTruthy, JVal.getField,
      lookupK, hjne]
  · rw [hcode]
    simp [validate_coupon_outcome, hlook, pyFalsy, optTruthy,
      JVal.getField, lookupK, hjne]

/-- Witness for C7: draw "ABC123" for "user123", checked by "user123" and
"otherUser" at time 10 against expiry 300. -/
theorem coupon_round_trip_witness :
    ("ABC123".data.length = 6 ∧
     "ABC123".data.all (fun c => c ∈ couponAlphabet) = true ∧
     "user123" ≠ "otherUser") ∧
    ((generate_coupon [] "user123" "ABC123".data 0).1.coupon_code.length =
       6 ∧
     (generate_coupon [] "user123"
         "ABC123".data 0).1.coupon_code.data.all Char.isAlphanum = true ∧
     validate_coupon (generate_coupon [] "user123" "ABC123".data 0).2
       (generate_coupon [] "user123" "ABC123".data 0).1.coupon_code
       "user123" 10 = .ok true ∧
     validate_coupon (generate_coupon [] "user123" "ABC123".data 0).2
       (generate_coupon [] "user123" "ABC123".data 0).1.coupon_code
       "otherUser" 10 = .ok false ∧
     validate_coupon_outcome
       (generate_coupon [] "user123" "ABC123".data 0).2
       (generate_coupon [] "user123" "ABC123".data 0).1.coupon_code
       "otherUser" 10 = .ownerMismatch) :=
  ⟨⟨by decide, by decide, by decide⟩,
   coupon_round_trip [] "user123" "otherUser" "ABC123".data 0 10 10
     (by decide) (by decide) (by decide) (by decide) (by decide)⟩

/-! ## C8: flight sequence events and status transitions -/

/-- C8 counterexample: for activity "A1" the three notifier events are
indeed update, update, end, but no single stored field transitions
boarding → finalCall → ended: after step 1 the record's top-level `status`
is still "active" (only the nested `state.status` is "boarding"), and after
step 3 the nested `state.status` is still "finalCall" (only the top-level
`status` is "ended"). -/
theorem flight_status_field_counterexample :
    ((localGet
        (kv_update_state
          (register [] ⟨"flightUpdate", "A1", ⟨"G", none, none, none⟩⟩
            "t0") "A1" (some "boarding") none "t1")
        (flightKey "A1")).getD .jnull).getField "status" =
      some (.jstr "active") ∧
    ((localGet
        (kv_update_state
          (register [] ⟨"flightUpdate", "A1", ⟨"G", none, none, none⟩⟩
            "t0") "A1" (some "boarding") none "t1")
        (flightKey "A1")).getD .jnull).getField "status" ≠
      some (.jstr "boarding") ∧
    ((((localGet
        (kv_mark_ended
          (kv_update_state
            (kv_update_state
              (register [] ⟨"flightUpdate", "A1", ⟨"G", none, none, none⟩⟩
                "t0") "A1" (some "boarding") none "t1")
            "A1" (some "finalCall") (some (.jnum 2)) "t2")
          "A1" "t3")
        (flightKey "A1")).getD .jnull).getField "state").getD
        .jnull).getField "status" = some (.jstr "finalCall") ∧
    ((((localGet
        (kv_mark_ended
          (kv_update_state
            (kv_update_state
              (register [] ⟨"flightUpdate", "A1", ⟨"G", none, none, none⟩⟩
                "t0") "A1" (some "boarding") none "t1")
            "A1" (some "finalCall") (some (.jnum 2)) "t2")
          "A1" "t3")
        (flightKey "A1")).getD .jnull).getField "state").getD
        .jnull).getField "status" ≠ some (.jstr "ended") := by
  refine ⟨by rfl, by decide, by rfl, by decide⟩

/-- C8 amended: the flight sequence makes exactly three Notifier calls with
events update, update, end in that order.  The stored record starts from
`register` with top-level `status = "active"` and no `state.status`; step 1
sets the nested `state.status` to "boarding" and step 2 to "finalCall"
(the top-level `status` staying "active"), and step 3 sets the top-level
`status` to "ended" (the nested `state.status` staying "finalCall") — the
three values are split across two distinct fields rather than one field
transitioning through all of them. -/
theorem flight_sequence_events_and_status_amended (kv : LocalStore)
    (jobs : Jobs) (req : FlightUpdateLiveActivity) (delay : Int)
    (n0 t1 t2 t3 : String) :
    (run_emoji_sequence (register kv req n0) jobs req.activity_id delay t1
        t2 t3 none).1 =
      [.sleep delay, .notifyLiveActivity "update" flightUpdates1,
       .kvWrite (flightKey req.activity_id),
       .sleep delay, .notifyLiveActivity "update" flightUpdates2,
       .kvWrite (flightKey req.activity_id),
       .sleep delay, .notifyLiveActivity "end" flightUpdates3,
       .kvWrite (flightKey req.activity_id)] ∧
    ((localGet (register kv req n0) (flightKey req.activity_id)).getD
        .jnull).getField "status" = some (.jstr "active") ∧
    ((((localGet (register kv req n0) (flightKey req.activity_id)).getD
        .jnull).getField "state").getD .jnull).getField "status" = none ∧
    ((((localGet
        (kv_update_state (register kv req n0) req.activity_id
          (some "boarding") none t1)
        (flightKey req.activity_id)).getD .jnull).getField "state").getD
        .jnull).getField "status" = some (.jstr "boarding") ∧
    ((localGet
        (kv_update_state (register kv req n0) req.activity_id
          (some "boarding") none t1)
        (flightKey req.activity_id)).getD .jnull).getField "status" =
      some (.jstr "active") ∧
    ((((localGet
        (kv_update_state
          (kv_update_state (register kv req n0) req.activity_id
            (some "boarding") none t1)
          req.activity_id (some "finalCall") (some (.jnum 2)) t2)
        (flightKey req.activity_id)).getD .jnull).getField "state").getD
        .jnull).getField "status" = some (.jstr "finalCall") ∧
    ((localGet
        (kv_update_state
          (kv_update_state (register kv req n0) req.activity_id
            (some "boarding") none t1)
          req.activity_id (some "finalCall") (some (.jnum 2)) t2)
        (flightKey req.activity_id)).getD .jnull).getField "status" =
      some (.jstr "active") ∧
    ((localGet
        (kv_mark_ended
          (kv_update_state
            (kv_update_state (register kv req n0) req.activity_id
              (some "boarding") none t1)
            req.activity_id (some "finalCall") (some (.jnum 2)) t2)
          req.activity_id t3)
        (flightKey req.activity_id)).getD .jnull).getField "status" =
      some (.jstr "ended") ∧
    ((((localGet
        (kv_mark_ended
          (kv_update_state
            (kv_update_state (register kv req n0) req.activity_id
              (some "boarding") none t1)
            req.activity_id (some "finalCall") (some (.jnum 2)) t2)
          req.activity_id t3)
        (flightKey req.activity_id)).getD .jnull).getField "state").getD
        .jnull).getField "status" = some (.jstr "finalCall") ∧
    (run_emoji_sequence (register kv req n0) jobs req.activity_id delay t1
        t2 t3 none).2.1 =
      kv_mark_ended
        (kv_update_state
          (kv_update_state (register kv req n0) req.activity_id
            (some "boarding") none t1)
          req.activity_id (some "finalCall") (some (.jnum 2)) t2)
        req.activity_id t3 := by
  refine ⟨?_, ?_, ?_, ?_, ?_, ?_, ?_, ?_, ?_, ?_⟩ <;>
    simp [run_emoji_sequence, register, registerRecord, kv_update_state,
      kv_mark_ended, pyOrEmptyObj, pyFalsy, JVal.setNested, JVal.setField,
      JVal.getField, localSet, localGet, setK, lookupK, optStrToJ]

/-! ## C9: validation outcomes versus raised exceptions -/

/-- C9 counterexample: a rate-limited issue does not return a typed
rate-limited reason — `OTPService.generate_otp` raises
(`raise Exception("Too many OTP requests. Please try again later.")`,
modelled as `Except.error`) when the counter for the phone is at the cap. -/
theorem rate_limited_raises_counterexample :
    (generate_otp [("rate:+1555", ⟨.jnum 3, some 3600⟩)] "+1555" 12345
        "t").1 =
      .error "Too many OTP requests. Please try again later." := rfl

/-- C9 amended: verification outcomes (absent/expired OTP, already-used
OTP, coupon owner mismatch) are returned as typed values by the core
services, but a rate-limited issue is raised as an exception by
`OTPService.generate_otp`; the `/auth/otp` router catches it and converts
it into a `status="error"` response carrying the exception message. -/
theorem error_handling_amended (kv kvV kvU kvC : LocalStore)
    (phone p2 code2 p3 code3 created ccode u1 u2 : String) (rand : Nat)
    (now : String) (n exp tC : Int)
    (hr : localGet kv ("rate:" ++ phone) = some (.jnum n)) (hn : 3 ≤ n)
    (habs : localGet kvV ("otp:" ++ p2 ++ ":" ++ code2) = none)
    (hused : localGet kvU ("otp:" ++ p3 ++ ":" ++ code3) =
      some (otpRecord p3 code3 created true))
    (hC : localGet kvC ("coupon:" ++ ccode) =
      some (.jobj [("user_id", .jstr u1), ("expires_at", .jnum exp),
                   ("used", .jbool false)]))
    (hne : u1 ≠ u2) :
    generate_otp kv phone rand now =
      (.error "Too many OTP requests. Please try again later.", kv) ∧
    router_generate_otp kv phone rand now true =
      (⟨"error", "Too many OTP requests. Please try again later.", none,
        none⟩, kv) ∧
    verify_otp kvV p2 code2 = ((false, "Invalid code or expired"), kvV) ∧
    verify_otp kvU p3 code3 = ((false, "Code already used"), kvU) ∧
    validate_coupon kvC ccode u2 tC = .ok false ∧
    validate_coupon_outcome kvC ccode u2 tC = .ownerMismatch := by
  have hg := generate_otp_limited kv phone rand now n hr hn
  have hjne : (JVal.jstr u1) ≠ (.jstr u2) := by
    intro h
    injection h
    contradiction
  refine ⟨hg, ?_, ?_, ?_, ?_, ?_⟩
  · simp [router_generate_otp, hg]
  · simp [verify_otp, habs]
  · exact verify_otp_used kvU p3 code3 _ hused
      (by simp [otpRecord, pyFalsy])
      (by simp [otpRecord, optTruthy, JVal.getField, lookupK, pyFalsy])
  · simp [validate_coupon, hC, pyFalsy, JVal.getField, lookupK, hjne]
  · simp [validate_coupon_outcome, hC, pyFalsy, JVal.getField, lookupK,
      hjne]

/-- Witness for C9 amended: rate counter at 3 for "+1555", no OTP record
for "+1666"/"11111", a used OTP record for "+1777"/"22222", and a coupon
of "user123" checked by "otherUser". -/
theorem error_handling_amended_witness :
    (localGet [("rate:+1555", ⟨.jnum 3, some 3600⟩)] ("rate:" ++ "+1555") =
       some (.jnum 3) ∧
     localGet [] ("otp:" ++ "+1666" ++ ":" ++ "11111") = none ∧
     localGet [("otp:+1777:22222",
        ⟨otpRecord "+1777" "22222" "t" true, some 60⟩)]
       ("otp:" ++ "+1777" ++ ":" ++ "22222") =
       some (otpRecord "+1777" "22222" "t" true) ∧
     localGet [("coupon:ABC123",
        ⟨.jobj [("user_id", .jstr "user123"), ("expires_at", .jnum 300),
                ("used", .jbool false)], some 300⟩)]
       ("coupon:" ++ "ABC123") =
       some (.jobj [("user_id", .jstr "user123"),
                    ("expires_at", .jnum 300),
                    ("used", .jbool false)])) ∧
    (generate_otp [("rate:+1555", ⟨.jnum 3, some 3600⟩)] "+1555" 12345
        "t" =
      (.error "Too many OTP requests. Please try again later.",
        [("rate:+1555", ⟨.jnum 3, some 3600⟩)]) ∧
     router_generate_otp [("rate:+1555", ⟨.jnum 3, some 3600⟩)] "+1555"
        12345 "t" true =
      (⟨"error", "Too many OTP requests. Please try again later.", none,
        none⟩, [("rate:+1555", ⟨.jnum 3, some 3600⟩)]) ∧
     verify_otp [] "+1666" "11111" =
       ((false, "Invalid code or expired"), []) ∧
     verify_otp [("otp:+1777:22222",
        ⟨otpRecord "+1777" "22222" "t" true, some 60⟩)] "+1777" "22222" =
       ((false, "Code already used"),
        [("otp:+1777:22222",
          ⟨otpRecord "+1777" "22222" "t" true, some 60⟩)]) ∧
     validate_coupon [("coupon:ABC123",
        ⟨.jobj [("user_id", .jstr "user123"), ("expires_at", .jnum 300),
                ("used", .jbool false)], some 300⟩)] "ABC123" "otherUser"
        10 = .ok false ∧
     validate_coupon_outcome [("coupon:ABC123",
        ⟨.jobj [("user_id", .jstr "user123"), ("expires_at", .jnum 300),
                ("used", .jbool false)], some 300⟩)] "ABC123" "otherUser"
        10 = .ownerMismatch) :=
  ⟨⟨by decide, by decide, by decide, by decide⟩,
   error_handling_amended [("rate:+1555", ⟨.jnum 3, some 3600⟩)] []
     [("otp:+1777:22222", ⟨otpRecord "+1777" "22222" "t" true, some 60⟩)]
     [("coupon:ABC123",
        ⟨.jobj [("user_id", .jstr "user123"), ("expires_at", .jnum 300),
                ("used", .jbool false)], some 300⟩)]
     "+1555" "+1666" "11111" "+1777" "22222" "t" "ABC123" "user123"
     "otherUser" 12345 "t" 3 300 10 (by decide) (by decide) (by decide)
     (by decide) (by decide) (by decide)⟩

/-! ## C10: flight scheduling guard side effects -/

/-- C10: when a sequence for the activity_id is already active,
`schedule_emoji_sequence` returns the already-running error and changes
nothing — the stored `live:flightUpdate` record is untouched (the guard
check precedes the unconditional `register` overwrite) and the guard map is
not modified, and no task is spawned; only when the guard is free does it
overwrite the stored record (whose `status` is reset to "active"), mark the
id active, and spawn the runner. -/
theorem schedule_emoji_guard_no_side_effects (kv : LocalStore)
    (jobs : Jobs) (payload : FlightUpdateLiveActivity) (now : String) :
    (lookupK jobs payload.activity_id = some true →
      schedule_emoji_sequence kv jobs payload now =
        (⟨"error",
          some ("Sequence already running for " ++ payload.activity_id),
          none⟩, kv, jobs, false)) ∧
    (lookupK jobs payload.activity_id ≠ some true →
      (schedule_emoji_sequence kv jobs payload now).1 =
        ⟨"started", none, some payload.activity_id⟩ ∧
      (schedule_emoji_sequence kv jobs payload now).2.1 =
        register kv payload now ∧
      localGet (schedule_emoji_sequence kv jobs payload now).2.1
        (flightKey payload.activity_id) =
        some (registerRecord payload now) ∧
      (registerRecord payload now).getField "status" =
        some (.jstr "active") ∧
      (schedule_emoji_sequence kv jobs payload now).2.2.1 =
        setK jobs payload.activity_id true ∧
      (schedule_emoji_sequence kv jobs payload now).2.2.2 = true) := by
  constructor
  · intro h
    simp [schedule_emoji_sequence, h]
  · intro h
    refine ⟨?_, ?_, ?_, ?_, ?_, ?_⟩ <;>
      simp [schedule_emoji_sequence, h, register, localGet_localSet_same,
        registerRecord, JVal.getField, lookupK]

/-- Witness for C10: activity "A1" rejected while held (`[("A1", true)]`)
and accepted on the empty guard map. -/
theorem schedule_emoji_guard_no_side_effects_witness :
    (lookupK [("A1", true)] "A1" = some true ∧
     lookupK ([] : Jobs) "A1" ≠ some true) ∧
    schedule_emoji_sequence [] [("A1", true)]
      ⟨"flightUpdate", "A1", ⟨"G", none, none, none⟩⟩ "t" =
      (⟨"error", some ("Sequence already running for " ++ "A1"), none⟩,
        [], [("A1", true)], false) ∧
    ((schedule_emoji_sequence [] []
        ⟨"flightUpdate", "A1", ⟨"G", none, none, none⟩⟩ "t").1 =
      ⟨"started", none, some "A1"⟩ ∧
     (schedule_emoji_sequence [] []
        ⟨"flightUpdate", "A1", ⟨"G", none, none, none⟩⟩ "t").2.2.2 =
      true) :=
  ⟨⟨by decide, by decide⟩,
   (schedule_emoji_guard_no_side_effects [] [("A1", true)]
     ⟨"flightUpdate", "A1", ⟨"G", none, none, none⟩⟩ "t").1 (by decide),
   ((schedule_emoji_guard_no_side_effects [] []
      ⟨"flightUpdate", "A1", ⟨"G", none, none, none⟩⟩ "t").2
      (by decide)).1,
   ((schedule_emoji_guard_no_side_effects [] []
      ⟨"flightUpdate", "A1", ⟨"G", none, none, none⟩⟩ "t").2
      (by decide)).2.2.2.2.2⟩
